import Mathlib

/-! Order saga (temporal-app): shallow embedding and verified properties.

The development embeds three packages of the repository:

* `internal/activity/order_activity.go`  -> namespace `activity`
* `internal/workflow/order_workflow.go`  -> namespace `workflow`
* `internal/handler/order_handler.go`    -> namespace `handler`

Go values are modelled as follows.

* `error` is the inductive type `GoError`; a nil error is `none : Option GoError`.
* `float64` is the record `Float64` of the three IEEE-754 binary64 fields; the only
  float operation the program performs is unary minus, which flips the sign field.
* `time.Time` and `time.Duration` are natural numbers (nanoseconds).
* A call through the Temporal SDK (`workflow.ExecuteActivity(..).Get`,
  `client.SignalWorkflow`, `selector.Select`) is a recorded effect whose result is an
  input of the model.
-/

/-! ## Go runtime values -/

/-- Go error values: `errors.errorString` and the `fmt.wrapError` built by
`fmt.Errorf` with a `%w` verb. -/
inductive GoError where
  | errorString (msg : String)
  | wrapError (msg : String) (err : GoError)
deriving DecidableEq, Repr

namespace GoError

/-- Method `Error()` of a Go error. -/
def Error : GoError → String
  | errorString msg => msg
  | wrapError msg _ => msg

/-- Method `Unwrap()`: the wrapped error, if any. -/
def Unwrap : GoError → Option GoError
  | errorString _ => none
  | wrapError _ err => some err

end GoError

/-- Go `fmt.Errorf(pre + "%w", err)` for a format that is a literal text followed
by `%w`. -/
def Errorf_w (pre : String) (err : GoError) : GoError :=
  GoError.wrapError (pre ++ err.Error) err

/-- IEEE-754 binary64 value, given by its three bit fields. -/
structure Float64 where
  sign : Bool
  exponent : Nat
  fraction : Nat
deriving DecidableEq, Repr

namespace Float64

/-- Go unary minus on a `float64`: the sign bit is flipped, the other bits are kept. -/
def neg (x : Float64) : Float64 :=
  { x with sign := !x.sign }

/-- The float64 literal `100.00` (1.5625 * 2^6). -/
def hundred : Float64 :=
  { sign := false, exponent := 1029, fraction := 0x9000000000000 }

end Float64

/-- Go `time.Time`, as nanoseconds since the epoch. -/
abbrev Time := Nat

/-- Go `time.Duration`, in nanoseconds. -/
abbrev Duration := Nat

/-- Go `time.Second`. -/
def Second : Duration := 1000000000

/-- Go `time.Minute`. -/
def Minute : Duration := 60 * Second

/-- Go `time.Hour`. -/
def Hour : Duration := 60 * Minute

/-! ## Package activity -/

namespace activity

structure CreateOrderRequest where
  ID : String
  Status : String
  CreatedAt : Time
deriving DecidableEq, Repr

structure ProcessPaymentRequest where
  OrderID : String
  Amount : Float64
deriving DecidableEq, Repr

structure UpdateInventoryRequest where
  OrderID : String
  ProductIDs : List String
deriving DecidableEq, Repr

structure CompensateOrderRequest where
  OrderID : String
  Amount : Float64
  Reason : String
  Steps : List String
deriving DecidableEq, Repr

/-- One call of a method of `OrderActivity`, with its argument. -/
inductive Call where
  | CreateOrder (req : CreateOrderRequest)
  | ProcessPayment (req : ProcessPaymentRequest)
  | UpdateInventory (req : UpdateInventoryRequest)
  | NotifyCustomer (orderID : String)
  | CompensateOrder (req : CompensateOrderRequest)
deriving DecidableEq, Repr

/-- Receiver of the activity methods. The source struct is empty ("you would inject
your repositories/services here") and its four leaf methods only sleep and return
nil. The record holds the result of each leaf method as a function of its request, so
that the error paths of `CompensateOrder` can be exercised; `NewOrderActivity` is
the value the source builds. -/
structure OrderActivity where
  CreateOrder : CreateOrderRequest → Option GoError
  ProcessPayment : ProcessPaymentRequest → Option GoError
  UpdateInventory : UpdateInventoryRequest → Option GoError
  NotifyCustomer : String → Option GoError

/-- Source `NewOrderActivity`: every leaf method returns nil. -/
def NewOrderActivity : OrderActivity :=
  { CreateOrder := fun _ => none
    ProcessPayment := fun _ => none
    UpdateInventory := fun _ => none
    NotifyCustomer := fun _ => none }

/-- Source `contains`: linear search for `item`. -/
def contains : List String → String → Bool
  | [], _ => false
  | s :: rest, item => if s = item then true else contains rest item

/-- What one run of an activity method did: the leaf calls it made, in order, and
the error it returned. -/
structure Run where
  calls : List Call
  err : Option GoError
deriving DecidableEq, Repr

/-- Source `OrderActivity.CompensateOrder`; `now` is the value of `time.Now()`. -/
def CompensateOrder (a : OrderActivity) (now : Time) (req : CompensateOrderRequest) : Run :=
  let refund : ProcessPaymentRequest := { OrderID := req.OrderID, Amount := req.Amount.neg }
  let cancelled : CreateOrderRequest :=
    { ID := req.OrderID, Status := "cancelled", CreatedAt := now }
  -- Step 1: If payment was processed, issue refund
  let step1 : Run :=
    if contains req.Steps "payment" then
      { calls := [Call.ProcessPayment refund], err := a.ProcessPayment refund }
    else
      { calls := [], err := none }
  match step1.err with
  | some err => { calls := step1.calls, err := some err }
  | none =>
    -- Step 2: Update order status to cancelled
    match a.CreateOrder cancelled with
    | some err => { calls := step1.calls ++ [Call.CreateOrder cancelled], err := some err }
    | none =>
      -- Step 3: Notify customer about cancellation/failure
      { calls := step1.calls ++ [Call.CreateOrder cancelled, Call.NotifyCustomer req.OrderID]
        err := a.NotifyCustomer req.OrderID }

/-- The refund requests (calls of `ProcessPayment`) among a list of calls. -/
def paymentCalls : List Call → List ProcessPaymentRequest
  | [] => []
  | Call.ProcessPayment req :: rest => req :: paymentCalls rest
  | _ :: rest => paymentCalls rest

/-- A receiver whose payment backend rejects every request; the other leaf methods
succeed. -/
def refundRejected : OrderActivity :=
  { NewOrderActivity with ProcessPayment := fun _ => some (GoError.errorString "refund rejected") }

/-- A receiver whose order store rejects every write; the other leaf methods succeed. -/
def storeDown : OrderActivity :=
  { NewOrderActivity with CreateOrder := fun _ => some (GoError.errorString "store down") }

/-- The refund request `CompensateOrder` builds for `req`. -/
def refundOf (req : CompensateOrderRequest) : ProcessPaymentRequest :=
  { OrderID := req.OrderID, Amount := req.Amount.neg }

/-- The status update `CompensateOrder` builds for `req` at time `now`. -/
def cancelledOf (req : CompensateOrderRequest) (now : Time) : CreateOrderRequest :=
  { ID := req.OrderID, Status := "cancelled", CreatedAt := now }

/-- The refund call `CompensateOrder` makes for `req`: one call of `ProcessPayment`
with the refund request when Steps contains "payment", none otherwise. -/
def refundCalls (req : CompensateOrderRequest) : List Call :=
  if contains req.Steps "payment" then [Call.ProcessPayment (refundOf req)] else []

end activity

/-! ## Package workflow -/

namespace workflow

structure OrderSignal where
  Status : String
deriving DecidableEq, Repr

structure Order where
  ID : String
  Status : String
  CreatedAt : Time
  Amount : Float64
  Products : List String
deriving DecidableEq, Repr

/-- Temporal `temporal.RetryPolicy`, with the fields the workflow sets. -/
structure RetryPolicy where
  InitialInterval : Duration
  BackoffCoefficient : ℚ
  MaximumInterval : Duration
  MaximumAttempts : Nat
deriving DecidableEq

/-- Temporal `workflow.ActivityOptions`, with the fields the workflow sets. -/
structure ActivityOptions where
  StartToCloseTimeout : Duration
  RetryPolicy : RetryPolicy
deriving DecidableEq

/-- The `activityOptions` value built at the top of `OrderWorkflow` and installed
for every activity the workflow executes. -/
def activityOptions : ActivityOptions :=
  { StartToCloseTimeout := Minute
    RetryPolicy :=
      { InitialInterval := Second
        BackoffCoefficient := 2
        MaximumInterval := Minute
        MaximumAttempts := 3 } }

/-- Duration of the timer the workflow creates before its decision wait. -/
def decisionTimeout : Duration := 24 * Hour

/-- What one call of `selector.Select` delivers: a signal received on the
"order-signal" channel, or the firing of the 24 hour timer. -/
inductive Event where
  | signal (s : OrderSignal)
  | timer
deriving DecidableEq, Repr

inductive Level where
  | info
  | error
deriving DecidableEq, Repr

/-- One line written through the workflow logger (message text only). -/
structure LogEntry where
  level : Level
  msg : String
deriving DecidableEq, Repr

/-- The effects of a workflow run so far: the activities executed through
`workflow.ExecuteActivity`, the log lines, and the number of completed calls of
`selector.Select`. -/
structure Trace where
  calls : List activity.Call
  logs : List LogEntry
  selects : Nat
deriving DecidableEq, Repr

namespace Trace

def empty : Trace :=
  { calls := [], logs := [], selects := 0 }

/-- Effect of `logger.Info`. -/
def info (t : Trace) (msg : String) : Trace :=
  { t with logs := t.logs ++ [{ level := Level.info, msg := msg }] }

/-- Effect of `logger.Error`. -/
def error (t : Trace) (msg : String) : Trace :=
  { t with logs := t.logs ++ [{ level := Level.error, msg := msg }] }

/-- Effect of `workflow.ExecuteActivity`. -/
def execute (t : Trace) (c : activity.Call) : Trace :=
  { t with calls := t.calls ++ [c] }

/-- Effect of a completed `selector.Select`. -/
def select (t : Trace) : Trace :=
  { t with selects := t.selects + 1 }

end Trace

/-- How a run stands once the delivered events are used up: the workflow function
has returned (with its error, `none` for nil), or it is blocked inside
`selector.Select` waiting for the next event. -/
inductive Outcome where
  | returned (err : Option GoError)
  | blocked
deriving DecidableEq, Repr

structure Execution where
  trace : Trace
  outcome : Outcome
deriving DecidableEq, Repr

/-- One call of `selector.Select` that delivers `ev`: the receive callback stores
the signal in the variable `signal`, the timer callback only logs. -/
def Select (signal : OrderSignal) (t : Trace) : Event → OrderSignal × Trace
  | Event.signal s => (s, t.select.info "Received signal")
  | Event.timer => (signal, t.select.info "Workflow timed out after 24 hours")

/-- The `for running` loop of `OrderWorkflow`. `signal` is the loop-carried variable
of the source, `exec c` is the result of `workflow.ExecuteActivity(ctx, c).Get`, and
the list holds the events later calls of `Select` deliver. -/
def decisionLoop (exec : activity.Call → Option GoError) (order : Order) :
    OrderSignal → Trace → List Event → Execution
  | _, t, [] => { trace := t, outcome := Outcome.blocked }
  | signal, t, ev :: rest =>
    let signal1 := (Select signal t ev).1
    let t1 := (Select signal t ev).2
    if signal1.Status = "complete" then
      -- running = false
      let t2 := (t1.info "Processing order completion").execute
        (activity.Call.NotifyCustomer order.ID)
      match exec (activity.Call.NotifyCustomer order.ID) with
      | some _ =>
        { trace := t2.error "Failed to send completion notification"
          outcome := Outcome.returned none }
      | none =>
        { trace := t2.info "Completion notification sent successfully"
          outcome := Outcome.returned none }
    else if signal1.Status = "cancel" then
      -- running = false
      let req : activity.CompensateOrderRequest :=
        { OrderID := order.ID, Amount := order.Amount, Reason := "user_cancelled"
          Steps := ["payment", "inventory"] }
      let t2 := (t1.info "Processing order cancellation").execute
        (activity.Call.CompensateOrder req)
      match exec (activity.Call.CompensateOrder req) with
      | some _ =>
        { trace := t2.error "Cancellation compensation failed"
          outcome := Outcome.returned none }
      | none => { trace := t2, outcome := Outcome.returned none }
    else
      decisionLoop exec order signal1 t1 rest

/-- Source `OrderWorkflow`. `exec c` is the result of
`workflow.ExecuteActivity(ctx, c).Get(ctx, nil)` (nil is `none`), that is the final
result of the activity after the retries of the runtime; `events` are the events the
successive calls of `selector.Select` deliver. -/
def OrderWorkflow (exec : activity.Call → Option GoError) (order : Order)
    (events : List Event) : Execution :=
  let t := Trace.empty.info "OrderWorkflow started"
  -- Step 1: Create order in database
  let createReq : activity.CreateOrderRequest :=
    { ID := order.ID, Status := order.Status, CreatedAt := order.CreatedAt }
  let t := (t.info "Starting order creation").execute (activity.Call.CreateOrder createReq)
  match exec (activity.Call.CreateOrder createReq) with
  | some createOrderErr =>
    { trace := t.error "Failed to create order", outcome := Outcome.returned (some createOrderErr) }
  | none =>
    let t := t.info "Order created successfully"
    -- Step 2: Process payment
    let payReq : activity.ProcessPaymentRequest :=
      { OrderID := order.ID, Amount := order.Amount }
    let t := (t.info "Starting payment processing").execute (activity.Call.ProcessPayment payReq)
    match exec (activity.Call.ProcessPayment payReq) with
    | some processPaymentErr =>
      let t := t.error "Payment processing failed"
      -- Compensate for payment failure
      let req : activity.CompensateOrderRequest :=
        { OrderID := order.ID, Amount := order.Amount, Reason := "payment_failed", Steps := [] }
      let t := t.execute (activity.Call.CompensateOrder req)
      let t :=
        match exec (activity.Call.CompensateOrder req) with
        | some _ => t.error "Compensation failed"
        | none => t
      { trace := t
        outcome := Outcome.returned (some (Errorf_w "payment processing failed: " processPaymentErr)) }
    | none =>
      let t := t.info "Payment processed successfully"
      -- Step 3: Update inventory
      let invReq : activity.UpdateInventoryRequest :=
        { OrderID := order.ID, ProductIDs := order.Products }
      let t := (t.info "Starting inventory update").execute (activity.Call.UpdateInventory invReq)
      match exec (activity.Call.UpdateInventory invReq) with
      | some updateInventoryErr =>
        let t := t.error "Inventory update failed"
        -- Compensate for inventory update failure
        let req : activity.CompensateOrderRequest :=
          { OrderID := order.ID, Amount := order.Amount, Reason := "inventory_failed"
            Steps := ["payment"] }
        let t := t.execute (activity.Call.CompensateOrder req)
        let t :=
          match exec (activity.Call.CompensateOrder req) with
          | some _ => t.error "Compensation failed"
          | none => t
        { trace := t
          outcome := Outcome.returned (some (Errorf_w "inventory update failed: " updateInventoryErr)) }
      | none =>
        let t := t.info "Inventory updated successfully"
        -- Keep the workflow running until timeout or completion signal
        decisionLoop exec order { Status := "" } t events

/-- The compensation requests among the executed activities. -/
def compensations : List activity.Call → List activity.CompensateOrderRequest
  | [] => []
  | activity.Call.CompensateOrder req :: rest => req :: compensations rest
  | _ :: rest => compensations rest

/-- The order ids with which `NotifyCustomer` was executed. -/
def notifications : List activity.Call → List String
  | [] => []
  | activity.Call.NotifyCustomer orderID :: rest => orderID :: notifications rest
  | _ :: rest => notifications rest

/-- The requests with which `UpdateInventory` was executed. -/
def inventoryUpdates : List activity.Call → List activity.UpdateInventoryRequest
  | [] => []
  | activity.Call.UpdateInventory req :: rest => req :: inventoryUpdates rest
  | _ :: rest => inventoryUpdates rest

/-- An event that ends the decision wait: a signal "complete" or "cancel". -/
def Event.isDecision : Event → Bool
  | Event.signal s => s.Status = "complete" || s.Status = "cancel"
  | Event.timer => false

/-- Result of `ExecuteActivity` when every activity runs once on the receiver `a`:
the leaf methods answer directly and `CompensateOrder` runs its source body. -/
def runOn (a : activity.OrderActivity) (now : Time) : activity.Call → Option GoError
  | activity.Call.CreateOrder req => a.CreateOrder req
  | activity.Call.ProcessPayment req => a.ProcessPayment req
  | activity.Call.UpdateInventory req => a.UpdateInventory req
  | activity.Call.NotifyCustomer orderID => a.NotifyCustomer orderID
  | activity.Call.CompensateOrder req => (activity.CompensateOrder a now req).err

/-- The `CreateOrder` activity call of step 1. -/
def createCall (order : Order) : activity.Call :=
  activity.Call.CreateOrder
    { ID := order.ID, Status := order.Status, CreatedAt := order.CreatedAt }

/-- The `ProcessPayment` activity call of step 2 (the charge). -/
def paymentCall (order : Order) : activity.Call :=
  activity.Call.ProcessPayment { OrderID := order.ID, Amount := order.Amount }

/-- The `UpdateInventory` activity call of step 3. -/
def inventoryCall (order : Order) : activity.Call :=
  activity.Call.UpdateInventory { OrderID := order.ID, ProductIDs := order.Products }

/-- The compensation call the workflow issues for `order` with the given reason and
completed steps. -/
def compensateCall (order : Order) (reason : String) (steps : List String) : activity.Call :=
  activity.Call.CompensateOrder
    { OrderID := order.ID, Amount := order.Amount, Reason := reason, Steps := steps }

/-- The three steps create, payment and inventory all end in success. -/
def StepsSucceed (exec : activity.Call → Option GoError) (order : Order) : Prop :=
  exec (createCall order) = none ∧ exec (paymentCall order) = none ∧
    exec (inventoryCall order) = none

instance (exec : activity.Call → Option GoError) (order : Order) :
    Decidable (StepsSucceed exec order) :=
  inferInstanceAs (Decidable (_ ∧ _ ∧ _))

/-- No signal "complete" or "cancel" is stored in the variable `signal`. -/
def Undecided (signal : OrderSignal) : Prop :=
  signal.Status ≠ "complete" ∧ signal.Status ≠ "cancel"

instance (signal : OrderSignal) : Decidable (Undecided signal) :=
  inferInstanceAs (Decidable (_ ∧ _))

/-! ### Activity executor -/

/-- What an execution of one activity under a retry policy did: the number of
invocations, the waits between them, and the final result (`none` for success,
`some e` for a final failure carrying the last error). -/
structure Attempts where
  invocations : Nat
  waits : List Duration
  result : Option GoError
deriving DecidableEq, Repr

/-- Modelled from the spec: the backoff of the Activity Executor (section 4.1), which
is the retry machinery of the Temporal runtime and is not part of the sources. The
wait after the failed attempt number `n` (counted from 1) is the initial interval
times the multiplier to the power `n - 1`, capped at the maximum interval. -/
def backoffInterval (p : RetryPolicy) (n : Nat) : Duration :=
  min ⌊(p.InitialInterval : ℚ) * p.BackoffCoefficient ^ (n - 1)⌋₊ p.MaximumInterval

/-- Modelled from the spec: the retries of the Activity Executor (section 4.1) after
`done` failed attempts, the last with error `last`, when `left` attempts remain.
`act n` is the result of attempt number `n`. -/
def retryFrom (p : RetryPolicy) (act : Nat → Option GoError) :
    Nat → Nat → GoError → List Duration → Attempts
  | 0, done, last, waits => { invocations := done, waits := waits, result := some last }
  | left + 1, done, _, waits =>
    match act (done + 1) with
    | none =>
      { invocations := done + 1, waits := waits ++ [backoffInterval p done], result := none }
    | some e => retryFrom p act left (done + 1) e (waits ++ [backoffInterval p done])

/-- Modelled from the spec: the Activity Executor contract `execute` (section 4.1),
which is the retry machinery of the Temporal runtime and is not part of the sources:
the activity is attempted, and re-attempted after a backoff wait while it fails, up
to the maximum number of attempts; then the last error is the final failure. (A
policy with maximum attempts 0 is not described by the spec; the model then makes
one attempt.) -/
def execute (p : RetryPolicy) (act : Nat → Option GoError) : Attempts :=
  match act 1 with
  | none => { invocations := 1, waits := [], result := none }
  | some e => retryFrom p act (p.MaximumAttempts - 1) 1 e []

/-- The trace a run has built when the three steps have succeeded and the decision
wait begins. -/
def awaitingTrace (order : Order) : Trace :=
  ((((((Trace.empty.info "OrderWorkflow started").info "Starting order creation").execute
    (createCall order)).info "Order created successfully").info
    "Starting payment processing").execute (paymentCall order) |>.info
    "Payment processed successfully" |>.info "Starting inventory update").execute
    (inventoryCall order) |>.info "Inventory updated successfully"

/-- An environment in which the payment step ends in a final failure and every
other activity succeeds. -/
def paymentDeclined : activity.Call → Option GoError
  | activity.Call.ProcessPayment _ => some (GoError.errorString "card declined")
  | _ => none

/-- An environment in which the inventory step ends in a final failure and every
other activity succeeds. -/
def outOfStock : activity.Call → Option GoError
  | activity.Call.UpdateInventory _ => some (GoError.errorString "out of stock")
  | _ => none

/-- An environment in which the order-record creation fails. -/
def databaseDown : activity.Call → Option GoError
  | activity.Call.CreateOrder _ => some (GoError.errorString "database down")
  | _ => none

/-- An environment in which the three steps succeed and the notification and the
compensation both fail. -/
def lateFailures : activity.Call → Option GoError
  | activity.Call.NotifyCustomer _ => some (GoError.errorString "mail server down")
  | activity.Call.CompensateOrder _ => some (GoError.errorString "refund rejected")
  | _ => none

/-- The order of the spec scenarios: amount 100.00, products ["p1"]. -/
def sampleOrder : Order :=
  { ID := "o1", Status := "pending", CreatedAt := 0, Amount := Float64.hundred
    Products := ["p1"] }

end workflow

/-! ## Package handler -/

namespace handler

structure CreateOrderRequest where
  Amount : Float64
  Products : List String
deriving DecidableEq, Repr

structure UpdateOrderStatusRequest where
  Status : String
deriving DecidableEq, Repr

/-- Temporal `client.StartWorkflowOptions`, with the fields the handler sets. -/
structure StartWorkflowOptions where
  ID : String
  TaskQueue : String
deriving DecidableEq, Repr

/-- One call on the Temporal client. -/
inductive ClientCall where
  | ExecuteWorkflow (options : StartWorkflowOptions) (workflowName : String)
      (order : workflow.Order)
  | SignalWorkflow (workflowID : String) (runID : String) (signalName : String)
      (arg : workflow.OrderSignal)
deriving DecidableEq, Repr

/-- The JSON bodies the handlers write. -/
inductive Body where
  | error (msg : String)
  | order (o : workflow.Order)
  | statusUpdated (message : String) (orderId : String) (status : String)
deriving DecidableEq, Repr

structure Response where
  code : Nat
  body : Body
deriving DecidableEq, Repr

/-- What a handler did: the calls it made on the Temporal client and the response
it wrote. -/
structure Handled where
  calls : List ClientCall
  response : Response
deriving DecidableEq, Repr

def StatusOK : Nat := 200

def StatusCreated : Nat := 201

def StatusBadRequest : Nat := 400

def StatusInternalServerError : Nat := 500

/-- Source `OrderHandler.CreateOrder`. `bind` is the result of `c.ShouldBindJSON`,
`uuid` the value of `uuid.New().String()`, `now` the value of `time.Now()`, and
`client c` the error returned by the call `c` on the Temporal client. -/
def CreateOrder (client : ClientCall → Option GoError)
    (bind : Except GoError CreateOrderRequest) (uuid : String) (now : Time) : Handled :=
  match bind with
  | Except.error err =>
    { calls := [], response := { code := StatusBadRequest, body := Body.error err.Error } }
  | Except.ok req =>
    let order : workflow.Order :=
      { ID := uuid, Status := "pending", CreatedAt := now, Amount := req.Amount
        Products := req.Products }
    let workflowOptions : StartWorkflowOptions :=
      { ID := "order-" ++ order.ID, TaskQueue := "order-queue" }
    let call := ClientCall.ExecuteWorkflow workflowOptions "OrderWorkflow" order
    match client call with
    | some err =>
      { calls := [call]
        response := { code := StatusInternalServerError, body := Body.error err.Error } }
    | none => { calls := [call], response := { code := StatusCreated, body := Body.order order } }

/-- Source `OrderHandler.UpdateOrderStatus`. `orderID` is the path parameter, `bind`
the result of `c.ShouldBindJSON`, and `client c` the error returned by the call `c`
on the Temporal client. -/
def UpdateOrderStatus (client : ClientCall → Option GoError) (orderID : String)
    (bind : Except GoError UpdateOrderStatusRequest) : Handled :=
  match bind with
  | Except.error err =>
    { calls := [], response := { code := StatusBadRequest, body := Body.error err.Error } }
  | Except.ok req =>
    -- Validate status
    if req.Status = "complete" ∨ req.Status = "cancel" then
      let workflowID := "order-" ++ orderID
      -- Send signal to the workflow
      let signal : workflow.OrderSignal := { Status := req.Status }
      let call := ClientCall.SignalWorkflow workflowID "" "order-signal" signal
      match client call with
      | some err =>
        { calls := [call]
          response := { code := StatusInternalServerError, body := Body.error err.Error } }
      | none =>
        { calls := [call]
          response :=
            { code := StatusOK
              body := Body.statusUpdated
                ("Order status updated to " ++ req.Status ++ " successfully") orderID req.Status } }
    else
      { calls := []
        response :=
          { code := StatusBadRequest
            body := Body.error ("Invalid status: " ++ req.Status ++
              ". Must be \x27complete\x27 or \x27cancel\x27") } }

/-- The signals sent among a list of client calls, as pairs of the workflow id
addressed and the signal value. -/
def signalsSent : List ClientCall → List (String × workflow.OrderSignal)
  | [] => []
  | ClientCall.SignalWorkflow workflowID _ _ arg :: rest => (workflowID, arg) :: signalsSent rest
  | _ :: rest => signalsSent rest

/-- The workflow ids under which sagas were started among a list of client calls,
paired with the id of the order passed to the saga. -/
def sagasStarted : List ClientCall → List (String × String)
  | [] => []
  | ClientCall.ExecuteWorkflow options _ order :: rest =>
    (options.ID, order.ID) :: sagasStarted rest
  | _ :: rest => sagasStarted rest

end handler

/-! ## Lemmas on the workflow -/

namespace workflow

theorem Select_calls (signal : OrderSignal) (t : Trace) (ev : Event) :
    (Select signal t ev).2.calls = t.calls := by
  cases ev <;> rfl

theorem Select_selects (signal : OrderSignal) (t : Trace) (ev : Event) :
    (Select signal t ev).2.selects = t.selects + 1 := by
  cases ev <;> rfl

theorem Select_undecided (signal : OrderSignal) (t : Trace) (ev : Event)
    (hs : Undecided signal) (hev : ev.isDecision = false) :
    Undecided (Select signal t ev).1 := by
  cases ev with
  | signal s =>
    simp only [Event.isDecision, Bool.or_eq_false_iff, decide_eq_false_iff_not] at hev
    exact hev
  | timer => exact hs

theorem Select_decided (signal : OrderSignal) (t : Trace) (ev : Event)
    (hev : ev.isDecision = true) :
    ev = Event.signal (Select signal t ev).1 ∧
      ((Select signal t ev).1.Status = "complete" ∨ (Select signal t ev).1.Status = "cancel") := by
  cases ev with
  | signal s =>
    simp only [Event.isDecision, Bool.or_eq_true, decide_eq_true_eq] at hev
    exact ⟨rfl, hev⟩
  | timer => simp [Event.isDecision] at hev

theorem awaitingTrace_calls (order : Order) :
    (awaitingTrace order).calls = [createCall order, paymentCall order, inventoryCall order] :=
  rfl

theorem awaitingTrace_selects (order : Order) : (awaitingTrace order).selects = 0 :=
  rfl

theorem undecided_initial : Undecided { Status := "" } := by
  constructor <;> decide

/-- When the three steps succeed the workflow is its decision loop, started with an
empty signal variable. -/
theorem OrderWorkflow_awaiting (exec : activity.Call → Option GoError) (order : Order)
    (events : List Event) (h : StepsSucceed exec order) :
    OrderWorkflow exec order events
      = decisionLoop exec order { Status := "" } (awaitingTrace order) events := by
  obtain ⟨h1, h2, h3⟩ := h
  simp only [createCall, paymentCall, inventoryCall] at h1 h2 h3
  simp only [OrderWorkflow, h1, h2, h3]
  rfl

/-- A decision loop that finds "complete" in the signal variable after its first
`Select`. -/
theorem decisionLoop_complete (exec : activity.Call → Option GoError) (order : Order)
    (signal : OrderSignal) (t : Trace) (ev : Event) (rest : List Event)
    (h : (Select signal t ev).1.Status = "complete") :
    (decisionLoop exec order signal t (ev :: rest)).trace.calls
        = t.calls ++ [activity.Call.NotifyCustomer order.ID] ∧
      (decisionLoop exec order signal t (ev :: rest)).trace.selects = t.selects + 1 ∧
      (decisionLoop exec order signal t (ev :: rest)).outcome = Outcome.returned none := by
  have hc := Select_calls signal t ev
  have hn := Select_selects signal t ev
  simp only [decisionLoop, h, if_true]
  cases exec (activity.Call.NotifyCustomer order.ID) <;>
    simp [Trace.info, Trace.error, Trace.execute, hc, hn]

/-- A decision loop that finds "cancel" in the signal variable after its first
`Select`. -/
theorem decisionLoop_cancel (exec : activity.Call → Option GoError) (order : Order)
    (signal : OrderSignal) (t : Trace) (ev : Event) (rest : List Event)
    (h : (Select signal t ev).1.Status = "cancel") :
    (decisionLoop exec order signal t (ev :: rest)).trace.calls
        = t.calls ++ [compensateCall order "user_cancelled" ["payment", "inventory"]] ∧
      (decisionLoop exec order signal t (ev :: rest)).trace.selects = t.selects + 1 ∧
      (decisionLoop exec order signal t (ev :: rest)).outcome = Outcome.returned none := by
  have hc := Select_calls signal t ev
  have hn := Select_selects signal t ev
  have hne : ¬ ("cancel" = "complete") := by decide
  simp only [decisionLoop, h, hne, if_true, if_false]
  cases exec (activity.Call.CompensateOrder
      { OrderID := order.ID, Amount := order.Amount, Reason := "user_cancelled"
        Steps := ["payment", "inventory"] }) <;>
    simp [Trace.info, Trace.error, Trace.execute, hc, hn, compensateCall]

/-- A decision loop whose first `Select` leaves the signal variable undecided goes
round again. -/
theorem decisionLoop_continue (exec : activity.Call → Option GoError) (order : Order)
    (signal : OrderSignal) (t : Trace) (ev : Event) (rest : List Event)
    (h : Undecided (Select signal t ev).1) :
    decisionLoop exec order signal t (ev :: rest)
      = decisionLoop exec order (Select signal t ev).1 (Select signal t ev).2 rest := by
  simp only [decisionLoop, h.1, h.2, if_false]

/-- Events that are no decision are consumed without any activity being executed. -/
theorem decisionLoop_skip (exec : activity.Call → Option GoError) (order : Order) :
    ∀ (pre rest : List Event) (signal : OrderSignal) (t : Trace),
      Undecided signal → (∀ ev ∈ pre, ev.isDecision = false) →
      ∃ signal1 t1, decisionLoop exec order signal t (pre ++ rest)
          = decisionLoop exec order signal1 t1 rest ∧
        Undecided signal1 ∧ t1.calls = t.calls ∧ t1.selects = t.selects + pre.length := by
  intro pre
  induction pre with
  | nil => intro rest signal t hs _; exact ⟨signal, t, rfl, hs, rfl, rfl⟩
  | cons ev pre ih =>
    intro rest signal t hs hpre
    have hev : ev.isDecision = false := hpre ev (List.mem_cons_self ev pre)
    have hu := Select_undecided signal t ev hs hev
    obtain ⟨signal1, t1, h1, h2, h3, h4⟩ :=
      ih rest (Select signal t ev).1 (Select signal t ev).2 hu
        (fun e he => hpre e (List.mem_cons_of_mem ev he))
    refine ⟨signal1, t1, ?_, h2, ?_, ?_⟩
    · rw [List.cons_append, decisionLoop_continue exec order signal t ev _ hu, h1]
    · rw [h3, Select_calls]
    · rw [h4, Select_selects, List.length_cons]; omega

end workflow

/-! ## Lemmas on the workflow, continued -/

namespace workflow

theorem compensations_append (xs ys : List activity.Call) :
    compensations (xs ++ ys) = compensations xs ++ compensations ys := by
  induction xs with
  | nil => rfl
  | cons c xs ih => cases c <;> simp [compensations, ih]

theorem notifications_append (xs ys : List activity.Call) :
    notifications (xs ++ ys) = notifications xs ++ notifications ys := by
  induction xs with
  | nil => rfl
  | cons c xs ih => cases c <;> simp [notifications, ih]

/-- Whatever the events, the decision loop executes at most one further activity:
the notification of this order, or the compensation for a user cancellation. -/
theorem decisionLoop_calls_cases (exec : activity.Call → Option GoError) (order : Order) :
    ∀ (events : List Event) (signal : OrderSignal) (t : Trace),
      (decisionLoop exec order signal t events).trace.calls = t.calls ∨
      (decisionLoop exec order signal t events).trace.calls
        = t.calls ++ [activity.Call.NotifyCustomer order.ID] ∨
      (decisionLoop exec order signal t events).trace.calls
        = t.calls ++ [compensateCall order "user_cancelled" ["payment", "inventory"]] := by
  intro events
  induction events with
  | nil => intro signal t; exact Or.inl rfl
  | cons ev rest ih =>
    intro signal t
    by_cases h1 : (Select signal t ev).1.Status = "complete"
    · exact Or.inr (Or.inl (decisionLoop_complete exec order signal t ev rest h1).1)
    · by_cases h2 : (Select signal t ev).1.Status = "cancel"
      · exact Or.inr (Or.inr (decisionLoop_cancel exec order signal t ev rest h2).1)
      · rw [decisionLoop_continue exec order signal t ev rest ⟨h1, h2⟩]
        have := ih (Select signal t ev).1 (Select signal t ev).2
        rw [Select_calls] at this
        exact this

/-- The run when the order-record creation fails. -/
theorem OrderWorkflow_create_failed (exec : activity.Call → Option GoError) (order : Order)
    (events : List Event) (e : GoError) (h : exec (createCall order) = some e) :
    (OrderWorkflow exec order events).outcome = Outcome.returned (some e) ∧
      (OrderWorkflow exec order events).trace.calls = [createCall order] ∧
      (OrderWorkflow exec order events).trace.selects = 0 := by
  simp only [createCall] at h
  simp only [OrderWorkflow, h]
  refine ⟨?_, ?_, ?_⟩ <;> first | rfl | trivial

/-- The run when the payment step ends in a final failure. -/
theorem OrderWorkflow_payment_failed (exec : activity.Call → Option GoError) (order : Order)
    (events : List Event) (e : GoError) (h1 : exec (createCall order) = none)
    (h2 : exec (paymentCall order) = some e) :
    (OrderWorkflow exec order events).outcome
        = Outcome.returned (some (Errorf_w "payment processing failed: " e)) ∧
      (OrderWorkflow exec order events).trace.calls
        = [createCall order, paymentCall order, compensateCall order "payment_failed" []] ∧
      (OrderWorkflow exec order events).trace.selects = 0 := by
  simp only [createCall, paymentCall] at h1 h2
  simp only [OrderWorkflow, h1, h2]
  cases exec (activity.Call.CompensateOrder
      { OrderID := order.ID, Amount := order.Amount, Reason := "payment_failed", Steps := [] }) <;>
    (refine ⟨?_, ?_, ?_⟩ <;> first | rfl | trivial)

/-- The run when the inventory step ends in a final failure. -/
theorem OrderWorkflow_inventory_failed (exec : activity.Call → Option GoError) (order : Order)
    (events : List Event) (e : GoError) (h1 : exec (createCall order) = none)
    (h2 : exec (paymentCall order) = none) (h3 : exec (inventoryCall order) = some e) :
    (OrderWorkflow exec order events).outcome
        = Outcome.returned (some (Errorf_w "inventory update failed: " e)) ∧
      (OrderWorkflow exec order events).trace.calls
        = [createCall order, paymentCall order, inventoryCall order,
            compensateCall order "inventory_failed" ["payment"]] ∧
      (OrderWorkflow exec order events).trace.selects = 0 := by
  simp only [createCall, paymentCall, inventoryCall] at h1 h2 h3
  simp only [OrderWorkflow, h1, h2, h3]
  cases exec (activity.Call.CompensateOrder
      { OrderID := order.ID, Amount := order.Amount, Reason := "inventory_failed"
        Steps := ["payment"] }) <;>
    (refine ⟨?_, ?_, ?_⟩ <;> first | rfl | trivial)

/-- The run when the three steps succeed and the first decision is "complete". -/
theorem OrderWorkflow_completed (exec : activity.Call → Option GoError) (order : Order)
    (pre rest : List Event) (h : StepsSucceed exec order)
    (hpre : ∀ ev ∈ pre, ev.isDecision = false) :
    (OrderWorkflow exec order (pre ++ Event.signal { Status := "complete" } :: rest)).outcome
        = Outcome.returned none ∧
      (OrderWorkflow exec order (pre ++ Event.signal { Status := "complete" } :: rest)).trace.calls
        = [createCall order, paymentCall order, inventoryCall order,
            activity.Call.NotifyCustomer order.ID] ∧
      (OrderWorkflow exec order (pre ++ Event.signal { Status := "complete" } :: rest)).trace.selects
        = pre.length + 1 := by
  rw [OrderWorkflow_awaiting exec order _ h]
  obtain ⟨signal1, t1, h1, _, h3, h4⟩ :=
    decisionLoop_skip exec order pre (Event.signal { Status := "complete" } :: rest)
      { Status := "" } (awaitingTrace order) undecided_initial hpre
  obtain ⟨c1, c2, c3⟩ := decisionLoop_complete exec order signal1 t1
    (Event.signal { Status := "complete" }) rest rfl
  rw [h1]
  refine ⟨c3, ?_, ?_⟩
  · rw [c1, h3, awaitingTrace_calls]; rfl
  · rw [c2, h4, awaitingTrace_selects]; omega

/-- The run when the three steps succeed and the first decision is "cancel". -/
theorem OrderWorkflow_cancelled (exec : activity.Call → Option GoError) (order : Order)
    (pre rest : List Event) (h : StepsSucceed exec order)
    (hpre : ∀ ev ∈ pre, ev.isDecision = false) :
    (OrderWorkflow exec order (pre ++ Event.signal { Status := "cancel" } :: rest)).outcome
        = Outcome.returned none ∧
      (OrderWorkflow exec order (pre ++ Event.signal { Status := "cancel" } :: rest)).trace.calls
        = [createCall order, paymentCall order, inventoryCall order,
            compensateCall order "user_cancelled" ["payment", "inventory"]] ∧
      (OrderWorkflow exec order (pre ++ Event.signal { Status := "cancel" } :: rest)).trace.selects
        = pre.length + 1 := by
  rw [OrderWorkflow_awaiting exec order _ h]
  obtain ⟨signal1, t1, h1, _, h3, h4⟩ :=
    decisionLoop_skip exec order pre (Event.signal { Status := "cancel" } :: rest)
      { Status := "" } (awaitingTrace order) undecided_initial hpre
  obtain ⟨c1, c2, c3⟩ := decisionLoop_cancel exec order signal1 t1
    (Event.signal { Status := "cancel" }) rest rfl
  rw [h1]
  refine ⟨c3, ?_, ?_⟩
  · rw [c1, h3, awaitingTrace_calls]; rfl
  · rw [c2, h4, awaitingTrace_selects]; omega

/-- While no decision is delivered the workflow does not return: after the three steps
it is blocked in `Select`, having executed nothing more, however many timer firings
and other signals it was delivered. -/
theorem OrderWorkflow_blocked_without_decision (exec : activity.Call → Option GoError)
    (order : Order) (events : List Event) (h : StepsSucceed exec order)
    (hev : ∀ ev ∈ events, ev.isDecision = false) :
    (OrderWorkflow exec order events).outcome = Outcome.blocked ∧
      (OrderWorkflow exec order events).trace.calls
        = [createCall order, paymentCall order, inventoryCall order] ∧
      (OrderWorkflow exec order events).trace.selects = events.length := by
  rw [OrderWorkflow_awaiting exec order _ h]
  obtain ⟨signal1, t1, h1, _, h3, h4⟩ :=
    decisionLoop_skip exec order events [] { Status := "" } (awaitingTrace order)
      undecided_initial hev
  rw [List.append_nil] at h1
  rw [h1]
  refine ⟨rfl, ?_, ?_⟩
  · show t1.calls = _
    rw [h3, awaitingTrace_calls]
  · show t1.selects = _
    rw [h4, awaitingTrace_selects]; omega

/-- No run executes the same activity call twice, so that a result given as a function
of the call covers every behaviour of the activities within a run. -/
theorem OrderWorkflow_calls_nodup (exec : activity.Call → Option GoError) (order : Order)
    (events : List Event) : (OrderWorkflow exec order events).trace.calls.Nodup := by
  cases h1 : exec (createCall order) with
  | some e =>
    rw [(OrderWorkflow_create_failed exec order events e h1).2.1]
    simp
  | none =>
    cases h2 : exec (paymentCall order) with
    | some e =>
      rw [(OrderWorkflow_payment_failed exec order events e h1 h2).2.1]
      simp [createCall, paymentCall, compensateCall]
    | none =>
      cases h3 : exec (inventoryCall order) with
      | some e =>
        rw [(OrderWorkflow_inventory_failed exec order events e h1 h2 h3).2.1]
        simp [createCall, paymentCall, inventoryCall, compensateCall]
      | none =>
        rw [OrderWorkflow_awaiting exec order events ⟨h1, h2, h3⟩]
        rcases decisionLoop_calls_cases exec order events { Status := "" }
            (awaitingTrace order) with hc | hc | hc <;>
          rw [hc, awaitingTrace_calls] <;>
          simp [createCall, paymentCall, inventoryCall, compensateCall]

end workflow

/-! ## Properties of the workflow -/

namespace workflow

/-- C1: the compensation request issued by `OrderWorkflow` is, when the payment step
finally fails, the single request with Steps `[]` and reason "payment_failed"; when
the inventory step finally fails, the single request with Steps `["payment"]` and
reason "inventory_failed"; when "cancel" is the decision received after three
successful steps, the single request with Steps `["payment","inventory"]` and reason
"user_cancelled"; each carries the id and the amount of the order, and no run issues a
compensation request of any other shape. -/
theorem compensation_request_contents (exec : activity.Call → Option GoError)
    (order : Order) :
    (∀ (events : List Event) (e : GoError),
      exec (createCall order) = none → exec (paymentCall order) = some e →
      compensations (OrderWorkflow exec order events).trace.calls
        = [{ OrderID := order.ID, Amount := order.Amount, Reason := "payment_failed"
             Steps := [] }]) ∧
    (∀ (events : List Event) (e : GoError),
      exec (createCall order) = none → exec (paymentCall order) = none →
      exec (inventoryCall order) = some e →
      compensations (OrderWorkflow exec order events).trace.calls
        = [{ OrderID := order.ID, Amount := order.Amount, Reason := "inventory_failed"
             Steps := ["payment"] }]) ∧
    (∀ (pre rest : List Event), StepsSucceed exec order →
      (∀ ev ∈ pre, ev.isDecision = false) →
      compensations
          (OrderWorkflow exec order
            (pre ++ Event.signal { Status := "cancel" } :: rest)).trace.calls
        = [{ OrderID := order.ID, Amount := order.Amount, Reason := "user_cancelled"
             Steps := ["payment", "inventory"] }]) ∧
    (∀ (events : List Event),
      ∀ req ∈ compensations (OrderWorkflow exec order events).trace.calls,
        req.OrderID = order.ID ∧ req.Amount = order.Amount ∧
          ((req.Steps = [] ∧ req.Reason = "payment_failed") ∨
            (req.Steps = ["payment"] ∧ req.Reason = "inventory_failed") ∨
            (req.Steps = ["payment", "inventory"] ∧ req.Reason = "user_cancelled"))) := by
  refine ⟨?_, ?_, ?_, ?_⟩
  · intro events e h1 h2
    rw [(OrderWorkflow_payment_failed exec order events e h1 h2).2.1]
    rfl
  · intro events e h1 h2 h3
    rw [(OrderWorkflow_inventory_failed exec order events e h1 h2 h3).2.1]
    rfl
  · intro pre rest h hpre
    rw [(OrderWorkflow_cancelled exec order pre rest h hpre).2.1]
    rfl
  · intro events req hreq
    cases h1 : exec (createCall order) with
    | some e =>
      rw [(OrderWorkflow_create_failed exec order events e h1).2.1] at hreq
      simp [compensations, createCall] at hreq
    | none =>
      cases h2 : exec (paymentCall order) with
      | some e =>
        rw [(OrderWorkflow_payment_failed exec order events e h1 h2).2.1] at hreq
        simp [compensations, createCall, paymentCall, compensateCall] at hreq
        subst hreq
        simp
      | none =>
        cases h3 : exec (inventoryCall order) with
        | some e =>
          rw [(OrderWorkflow_inventory_failed exec order events e h1 h2 h3).2.1] at hreq
          simp [compensations, createCall, paymentCall, inventoryCall, compensateCall] at hreq
          subst hreq
          simp
        | none =>
          rw [OrderWorkflow_awaiting exec order events ⟨h1, h2, h3⟩] at hreq
          rcases decisionLoop_calls_cases exec order events { Status := "" }
              (awaitingTrace order) with hc | hc | hc
          · rw [hc, awaitingTrace_calls] at hreq
            simp [compensations, createCall, paymentCall, inventoryCall] at hreq
          · rw [hc, awaitingTrace_calls] at hreq
            simp [compensations, createCall, paymentCall, inventoryCall] at hreq
          · rw [hc, awaitingTrace_calls] at hreq
            simp [compensations, createCall, paymentCall, inventoryCall, compensateCall] at hreq
            subst hreq
            simp

/-- C1, at the sample order: a declined payment, an inventory failure, and a "cancel"
signal that follows a timer firing and an unrelated signal. -/
theorem compensation_request_contents_witness :
    compensations (OrderWorkflow paymentDeclined sampleOrder []).trace.calls
        = [{ OrderID := "o1", Amount := Float64.hundred, Reason := "payment_failed"
             Steps := [] }] ∧
      compensations (OrderWorkflow outOfStock sampleOrder []).trace.calls
        = [{ OrderID := "o1", Amount := Float64.hundred, Reason := "inventory_failed"
             Steps := ["payment"] }] ∧
      compensations
          (OrderWorkflow lateFailures sampleOrder
            ([Event.timer, Event.signal { Status := "hold" }] ++
              Event.signal { Status := "cancel" } :: [])).trace.calls
        = [{ OrderID := "o1", Amount := Float64.hundred, Reason := "user_cancelled"
             Steps := ["payment", "inventory"] }] :=
  ⟨(compensation_request_contents paymentDeclined sampleOrder).1 []
      (GoError.errorString "card declined") (by decide) (by decide),
    (compensation_request_contents outOfStock sampleOrder).2.1 []
      (GoError.errorString "out of stock") (by decide) (by decide) (by decide),
    (compensation_request_contents lateFailures sampleOrder).2.2.1
      [Event.timer, Event.signal { Status := "hold" }] [] (by decide) (by decide)⟩

/-- C3, evaluated on the source: for the sample order with the leaf methods of the
source (all succeed), after the three steps the firing of the timer with no signal
received leaves the workflow blocked in a second `Select` instead of returning, with
the timeout logged; a "cancel" or "complete" signal that arrives after the timeout is
still acted upon. -/
theorem timeout_keeps_waiting :
    (OrderWorkflow (runOn activity.NewOrderActivity 0) sampleOrder [Event.timer]).outcome
        = Outcome.blocked ∧
      (OrderWorkflow (runOn activity.NewOrderActivity 0) sampleOrder [Event.timer]).trace.selects
        = 1 ∧
      { level := Level.info, msg := "Workflow timed out after 24 hours" } ∈
        (OrderWorkflow (runOn activity.NewOrderActivity 0) sampleOrder [Event.timer]).trace.logs ∧
      compensations
          (OrderWorkflow (runOn activity.NewOrderActivity 0) sampleOrder
            [Event.timer, Event.signal { Status := "cancel" }]).trace.calls
        = [{ OrderID := "o1", Amount := Float64.hundred, Reason := "user_cancelled"
             Steps := ["payment", "inventory"] }] ∧
      notifications
          (OrderWorkflow (runOn activity.NewOrderActivity 0) sampleOrder
            [Event.timer, Event.signal { Status := "complete" }]).trace.calls
        = ["o1"] := by
  decide

/-- C4: if the payment step (respectively the inventory step) ends in a final failure
with error `e`, the workflow returns the error built by `fmt.Errorf` from
"payment processing failed: " (respectively "inventory update failed: ") and `e`,
which unwraps to `e`; this holds for every result of the compensation activity and
for every list of events; the activities executed are exactly the steps reached and
the compensation, so that `UpdateInventory` is not executed after a payment failure
and `NotifyCustomer` never is; and no `Select` is made. -/
theorem step_failure_propagates (exec : activity.Call → Option GoError) (order : Order)
    (events : List Event) (e : GoError) :
    (exec (createCall order) = none → exec (paymentCall order) = some e →
      (OrderWorkflow exec order events).outcome
          = Outcome.returned (some (Errorf_w "payment processing failed: " e)) ∧
        (Errorf_w "payment processing failed: " e).Unwrap = some e ∧
        (Errorf_w "payment processing failed: " e).Error
          = "payment processing failed: " ++ e.Error ∧
        (OrderWorkflow exec order events).trace.calls
          = [createCall order, paymentCall order, compensateCall order "payment_failed" []] ∧
        inventoryUpdates (OrderWorkflow exec order events).trace.calls = [] ∧
        notifications (OrderWorkflow exec order events).trace.calls = [] ∧
        (OrderWorkflow exec order events).trace.selects = 0) ∧
    (exec (createCall order) = none → exec (paymentCall order) = none →
      exec (inventoryCall order) = some e →
      (OrderWorkflow exec order events).outcome
          = Outcome.returned (some (Errorf_w "inventory update failed: " e)) ∧
        (Errorf_w "inventory update failed: " e).Unwrap = some e ∧
        (Errorf_w "inventory update failed: " e).Error
          = "inventory update failed: " ++ e.Error ∧
        (OrderWorkflow exec order events).trace.calls
          = [createCall order, paymentCall order, inventoryCall order,
              compensateCall order "inventory_failed" ["payment"]] ∧
        notifications (OrderWorkflow exec order events).trace.calls = [] ∧
        (OrderWorkflow exec order events).trace.selects = 0) := by
  constructor
  · intro h1 h2
    obtain ⟨r1, r2, r3⟩ := OrderWorkflow_payment_failed exec order events e h1 h2
    rw [r2]
    exact ⟨r1, rfl, rfl, rfl, rfl, rfl, r3⟩
  · intro h1 h2 h3
    obtain ⟨r1, r2, r3⟩ := OrderWorkflow_inventory_failed exec order events e h1 h2 h3
    rw [r2]
    exact ⟨r1, rfl, rfl, rfl, rfl, r3⟩

/-- C4, at the sample order: a declined payment while a "complete" signal is pending,
and an inventory failure. -/
theorem step_failure_propagates_witness :
    ((OrderWorkflow paymentDeclined sampleOrder
          [Event.signal { Status := "complete" }]).outcome
        = Outcome.returned (some (GoError.wrapError "payment processing failed: card declined"
            (GoError.errorString "card declined"))) ∧
      inventoryUpdates (OrderWorkflow paymentDeclined sampleOrder
          [Event.signal { Status := "complete" }]).trace.calls = [] ∧
      (OrderWorkflow paymentDeclined sampleOrder
          [Event.signal { Status := "complete" }]).trace.selects = 0) ∧
    (OrderWorkflow outOfStock sampleOrder []).outcome
        = Outcome.returned (some (GoError.wrapError "inventory update failed: out of stock"
            (GoError.errorString "out of stock"))) :=
  have hp := (step_failure_propagates paymentDeclined sampleOrder
    [Event.signal { Status := "complete" }] (GoError.errorString "card declined")).1
    (by decide) (by decide)
  have hi := (step_failure_propagates outOfStock sampleOrder []
    (GoError.errorString "out of stock")).2 (by decide) (by decide) (by decide)
  ⟨⟨hp.1, hp.2.2.2.2.1, hp.2.2.2.2.2.2⟩, hi.1⟩

/-- C5: if the order-record creation fails with error `e`, the workflow returns
exactly `e`, and the only activity executed is that `CreateOrder`: no compensation,
payment, inventory update or notification, and no `Select`. -/
theorem create_failure_returned_unwrapped (exec : activity.Call → Option GoError)
    (order : Order) (events : List Event) (e : GoError)
    (h : exec (createCall order) = some e) :
    (OrderWorkflow exec order events).outcome = Outcome.returned (some e) ∧
      (OrderWorkflow exec order events).trace.calls = [createCall order] ∧
      compensations (OrderWorkflow exec order events).trace.calls = [] ∧
      activity.paymentCalls (OrderWorkflow exec order events).trace.calls = [] ∧
      inventoryUpdates (OrderWorkflow exec order events).trace.calls = [] ∧
      notifications (OrderWorkflow exec order events).trace.calls = [] ∧
      (OrderWorkflow exec order events).trace.selects = 0 := by
  obtain ⟨r1, r2, r3⟩ := OrderWorkflow_create_failed exec order events e h
  rw [r2]
  exact ⟨r1, rfl, rfl, rfl, rfl, rfl, r3⟩

/-- C5, at the sample order with a failing order store and a pending "cancel". -/
theorem create_failure_returned_unwrapped_witness :
    (OrderWorkflow databaseDown sampleOrder [Event.signal { Status := "cancel" }]).outcome
        = Outcome.returned (some (GoError.errorString "database down")) ∧
      (OrderWorkflow databaseDown sampleOrder
          [Event.signal { Status := "cancel" }]).trace.calls
        = [activity.Call.CreateOrder { ID := "o1", Status := "pending", CreatedAt := 0 }] :=
  have h := create_failure_returned_unwrapped databaseDown sampleOrder
    [Event.signal { Status := "cancel" }] (GoError.errorString "database down") (by decide)
  ⟨h.1, h.2.1⟩

/-- C6: when the three steps succeed and "complete" is the decision received (after
any events that are no decision), the workflow executes `NotifyCustomer` exactly once,
with the id of the order, executes no compensation, and returns nil, whatever the
result of the notification. -/
theorem complete_notifies_once (exec : activity.Call → Option GoError) (order : Order)
    (pre rest : List Event) (h : StepsSucceed exec order)
    (hpre : ∀ ev ∈ pre, ev.isDecision = false) :
    notifications
        (OrderWorkflow exec order
          (pre ++ Event.signal { Status := "complete" } :: rest)).trace.calls = [order.ID] ∧
      compensations
        (OrderWorkflow exec order
          (pre ++ Event.signal { Status := "complete" } :: rest)).trace.calls = [] ∧
      (OrderWorkflow exec order
          (pre ++ Event.signal { Status := "complete" } :: rest)).trace.calls
        = [createCall order, paymentCall order, inventoryCall order,
            activity.Call.NotifyCustomer order.ID] ∧
      (OrderWorkflow exec order
          (pre ++ Event.signal { Status := "complete" } :: rest)).outcome
        = Outcome.returned none := by
  obtain ⟨r1, r2, _⟩ := OrderWorkflow_completed exec order pre rest h hpre
  rw [r2]
  exact ⟨rfl, rfl, rfl, r1⟩

/-- C6, at the sample order, once with a notification that succeeds and once with a
notification that fails. -/
theorem complete_notifies_once_witness :
    (notifications
        (OrderWorkflow (runOn activity.NewOrderActivity 0) sampleOrder
          ([] ++ Event.signal { Status := "complete" } :: [])).trace.calls = ["o1"] ∧
      (OrderWorkflow (runOn activity.NewOrderActivity 0) sampleOrder
          ([] ++ Event.signal { Status := "complete" } :: [])).outcome
        = Outcome.returned none) ∧
    (lateFailures (activity.Call.NotifyCustomer "o1") ≠ none ∧
      notifications
        (OrderWorkflow lateFailures sampleOrder
          ([Event.timer] ++ Event.signal { Status := "complete" } ::
            [Event.signal { Status := "cancel" }])).trace.calls = ["o1"] ∧
      (OrderWorkflow lateFailures sampleOrder
          ([Event.timer] ++ Event.signal { Status := "complete" } ::
            [Event.signal { Status := "cancel" }])).outcome
        = Outcome.returned none) :=
  have h1 := complete_notifies_once (runOn activity.NewOrderActivity 0) sampleOrder [] []
    (by decide) (by decide)
  have h2 := complete_notifies_once lateFailures sampleOrder [Event.timer]
    [Event.signal { Status := "cancel" }] (by decide) (by decide)
  ⟨⟨h1.1, h1.2.2.2⟩, by decide, h2.1, h2.2.2.2⟩

/-- The activities executed by the decision loop and its outcome depend on the events
only through the first decision among them. -/
theorem decisionLoop_first_decision (exec : activity.Call → Option GoError) (order : Order) :
    ∀ (events : List Event) (signal signal0 : OrderSignal) (t t0 : Trace),
      Undecided signal → Undecided signal0 → t.calls = t0.calls →
      (decisionLoop exec order signal t events).trace.calls
          = (decisionLoop exec order signal0 t0
              (events.find? Event.isDecision).toList).trace.calls ∧
        (decisionLoop exec order signal t events).outcome
          = (decisionLoop exec order signal0 t0
              (events.find? Event.isDecision).toList).outcome := by
  intro events
  induction events with
  | nil =>
    intro signal signal0 t t0 _ _ hc
    simp [decisionLoop, hc]
  | cons ev rest ih =>
    intro signal signal0 t t0 hs hs0 hc
    by_cases hd : ev.isDecision = true
    · rw [List.find?_cons_of_pos _ hd]
      cases ev with
      | timer => simp [Event.isDecision] at hd
      | signal s =>
        simp only [Event.isDecision, Bool.or_eq_true, decide_eq_true_eq] at hd
        rcases hd with hd | hd
        · obtain ⟨a1, _, a3⟩ :=
            decisionLoop_complete exec order signal t (Event.signal s) rest hd
          obtain ⟨b1, _, b3⟩ :=
            decisionLoop_complete exec order signal0 t0 (Event.signal s) [] hd
          simp only [Option.toList]
          rw [a1, a3, b1, b3, hc]
          exact ⟨rfl, rfl⟩
        · obtain ⟨a1, _, a3⟩ :=
            decisionLoop_cancel exec order signal t (Event.signal s) rest hd
          obtain ⟨b1, _, b3⟩ :=
            decisionLoop_cancel exec order signal0 t0 (Event.signal s) [] hd
          simp only [Option.toList]
          rw [a1, a3, b1, b3, hc]
          exact ⟨rfl, rfl⟩
    · have hd2 : ev.isDecision = false := by simpa using hd
      rw [List.find?_cons_of_neg _ hd]
      have hu := Select_undecided signal t ev hs hd2
      rw [decisionLoop_continue exec order signal t ev rest hu]
      exact ih (Select signal t ev).1 signal0 (Select signal t ev).2 t0 hu hs0
        (by rw [Select_calls, hc])

/-- C8: for a saga whose three steps succeeded, the events that follow a processed
"complete" signal (any later "cancel" included) change nothing at all in the run, and
symmetrically for a processed "cancel"; after "complete" as first decision no
compensation is executed and the only payment call is the charge of step 2; and for
every sequence of events the activities executed and the result of the workflow are
those of the run that is delivered only the first "complete"/"cancel" signal of the
sequence. -/
theorem first_decision_is_final (exec : activity.Call → Option GoError) (order : Order)
    (h : StepsSucceed exec order) :
    (∀ rest : List Event,
      OrderWorkflow exec order (Event.signal { Status := "complete" } :: rest)
        = OrderWorkflow exec order [Event.signal { Status := "complete" }]) ∧
    (∀ rest : List Event,
      OrderWorkflow exec order (Event.signal { Status := "cancel" } :: rest)
        = OrderWorkflow exec order [Event.signal { Status := "cancel" }]) ∧
    (∀ pre rest : List Event, (∀ ev ∈ pre, ev.isDecision = false) →
      compensations
          (OrderWorkflow exec order
            (pre ++ Event.signal { Status := "complete" } :: rest)).trace.calls = [] ∧
        activity.paymentCalls
          (OrderWorkflow exec order
            (pre ++ Event.signal { Status := "complete" } :: rest)).trace.calls
          = [{ OrderID := order.ID, Amount := order.Amount }] ∧
        (OrderWorkflow exec order
            (pre ++ Event.signal { Status := "complete" } :: rest)).outcome
          = (OrderWorkflow exec order [Event.signal { Status := "complete" }]).outcome) ∧
    (∀ pre rest : List Event, (∀ ev ∈ pre, ev.isDecision = false) →
      notifications
          (OrderWorkflow exec order
            (pre ++ Event.signal { Status := "cancel" } :: rest)).trace.calls = [] ∧
        (OrderWorkflow exec order
            (pre ++ Event.signal { Status := "cancel" } :: rest)).outcome
          = (OrderWorkflow exec order [Event.signal { Status := "cancel" }]).outcome) ∧
    (∀ events : List Event,
      (OrderWorkflow exec order events).trace.calls
          = (OrderWorkflow exec order (events.find? Event.isDecision).toList).trace.calls ∧
        (OrderWorkflow exec order events).outcome
          = (OrderWorkflow exec order (events.find? Event.isDecision).toList).outcome) := by
  refine ⟨?_, ?_, ?_, ?_, ?_⟩
  · intro rest
    rw [OrderWorkflow_awaiting exec order _ h, OrderWorkflow_awaiting exec order _ h]
    simp [decisionLoop, Select]
  · intro rest
    rw [OrderWorkflow_awaiting exec order _ h, OrderWorkflow_awaiting exec order _ h]
    simp [decisionLoop, Select]
  · intro pre rest hpre
    obtain ⟨r1, r2, _⟩ := OrderWorkflow_completed exec order pre rest h hpre
    obtain ⟨s1, _, _⟩ := OrderWorkflow_completed exec order [] [] h (by simp)
    rw [List.nil_append] at s1
    rw [r1, r2, s1]
    exact ⟨rfl, rfl, rfl⟩
  · intro pre rest hpre
    obtain ⟨r1, r2, _⟩ := OrderWorkflow_cancelled exec order pre rest h hpre
    obtain ⟨s1, _, _⟩ := OrderWorkflow_cancelled exec order [] [] h (by simp)
    rw [List.nil_append] at s1
    rw [r1, r2, s1]
    exact ⟨rfl, rfl⟩
  · intro events
    rw [OrderWorkflow_awaiting exec order _ h, OrderWorkflow_awaiting exec order _ h]
    exact decisionLoop_first_decision exec order events { Status := "" } { Status := "" }
      (awaitingTrace order) (awaitingTrace order) undecided_initial undecided_initial rfl

/-- C8, at the sample order: "complete" followed by "cancel" runs exactly as
"complete" alone and executes no compensation, and "cancel" followed by "complete"
runs exactly as "cancel" alone. -/
theorem first_decision_is_final_witness :
    OrderWorkflow (runOn activity.NewOrderActivity 0) sampleOrder
        (Event.signal { Status := "complete" } :: [Event.signal { Status := "cancel" }])
      = OrderWorkflow (runOn activity.NewOrderActivity 0) sampleOrder
        [Event.signal { Status := "complete" }] ∧
    compensations
        (OrderWorkflow (runOn activity.NewOrderActivity 0) sampleOrder
          ([] ++ Event.signal { Status := "complete" } ::
            [Event.signal { Status := "cancel" }])).trace.calls = [] ∧
    OrderWorkflow (runOn activity.NewOrderActivity 0) sampleOrder
        (Event.signal { Status := "cancel" } :: [Event.signal { Status := "complete" }])
      = OrderWorkflow (runOn activity.NewOrderActivity 0) sampleOrder
        [Event.signal { Status := "cancel" }] :=
  have h := first_decision_is_final (runOn activity.NewOrderActivity 0) sampleOrder
    (by decide)
  ⟨h.1 [Event.signal { Status := "cancel" }],
    (h.2.2.1 [] [Event.signal { Status := "cancel" }] (by decide)).1,
    h.2.1 [Event.signal { Status := "complete" }]⟩

end workflow

/-! ## Properties of the compensation activity -/

namespace activity

/-- The guards of `CompensateOrder`, for an arbitrary receiver: a failed refund is
returned at once; otherwise the status update follows the refund call, and its
failure is returned; otherwise the notification follows and its result is returned. -/
theorem CompensateOrder_guards (a : OrderActivity) (now : Time)
    (req : CompensateOrderRequest) :
    (∀ e : GoError, contains req.Steps "payment" = true →
      a.ProcessPayment (refundOf req) = some e →
      CompensateOrder a now req
        = { calls := [Call.ProcessPayment (refundOf req)], err := some e }) ∧
    (∀ e : GoError,
      (contains req.Steps "payment" = true → a.ProcessPayment (refundOf req) = none) →
      a.CreateOrder (cancelledOf req now) = some e →
      CompensateOrder a now req
        = { calls := refundCalls req ++ [Call.CreateOrder (cancelledOf req now)]
            err := some e }) ∧
    ((contains req.Steps "payment" = true → a.ProcessPayment (refundOf req) = none) →
      a.CreateOrder (cancelledOf req now) = none →
      CompensateOrder a now req
        = { calls := refundCalls req ++
              [Call.CreateOrder (cancelledOf req now), Call.NotifyCustomer req.OrderID]
            err := a.NotifyCustomer req.OrderID }) := by
  refine ⟨?_, ?_, ?_⟩
  · intro e h1 h2
    simp only [refundOf] at h2
    simp [CompensateOrder, refundOf, h1, h2]
  · intro e h1 h2
    simp only [refundOf, cancelledOf] at h1 h2
    simp only [CompensateOrder, refundCalls, refundOf, cancelledOf, h2]
    cases hc : contains req.Steps "payment"
    · simp
    · simp [h1 hc]
  · intro h1 h2
    simp only [refundOf, cancelledOf] at h1 h2
    simp only [CompensateOrder, refundCalls, refundOf, cancelledOf, h2]
    cases hc : contains req.Steps "payment"
    · simp
    · simp [h1 hc]

/-- C2: in the program the refund, the status update and the notification are the
methods `ProcessPayment`, `CreateOrder` and `NotifyCustomer` of the receiver itself,
and each returns nil for every request, so that the one combination of results that
occurs is the one where all succeed. For every request and every time,
`CompensateOrder` then makes exactly these calls, in this order: the refund when Steps
contains "payment", the status update marking the order "cancelled", the customer
notification; and it returns nil, to a direct caller and to the workflow that executes
it as an activity. -/
theorem CompensateOrder_completes (now : Time) (req : CompensateOrderRequest) :
    ((∀ r : ProcessPaymentRequest, NewOrderActivity.ProcessPayment r = none) ∧
      (∀ r : CreateOrderRequest, NewOrderActivity.CreateOrder r = none) ∧
      (∀ orderID : String, NewOrderActivity.NotifyCustomer orderID = none)) ∧
    CompensateOrder NewOrderActivity now req
      = { calls := refundCalls req ++
            [Call.CreateOrder { ID := req.OrderID, Status := "cancelled", CreatedAt := now },
              Call.NotifyCustomer req.OrderID]
          err := none } ∧
    Call.CreateOrder { ID := req.OrderID, Status := "cancelled", CreatedAt := now } ∈
      (CompensateOrder NewOrderActivity now req).calls ∧
    Call.NotifyCustomer req.OrderID ∈ (CompensateOrder NewOrderActivity now req).calls ∧
    (CompensateOrder NewOrderActivity now req).err = none ∧
    workflow.runOn NewOrderActivity now (Call.CompensateOrder req) = none := by
  have h : CompensateOrder NewOrderActivity now req
      = { calls := refundCalls req ++
            [Call.CreateOrder { ID := req.OrderID, Status := "cancelled", CreatedAt := now },
              Call.NotifyCustomer req.OrderID]
          err := none } :=
    (CompensateOrder_guards NewOrderActivity now req).2.2 (fun _ => rfl) rfl
  refine ⟨⟨fun _ => rfl, fun _ => rfl, fun _ => rfl⟩, h, ?_, ?_, ?_, ?_⟩
  · rw [h]; simp
  · rw [h]; simp
  · rw [h]
  · show (CompensateOrder NewOrderActivity now req).err = none
    rw [h]

end activity

/-! ## The refund of a cancelled order -/

namespace workflow

/-- C7: when the three steps succeed and "cancel" is the decision received, the
workflow has charged `order.Amount` once in its payment step and issues one
compensation request; every run of `CompensateOrder` on that request calls
`ProcessPayment` exactly once, for the id of the order and with the negated charge,
whose exponent and fraction are those of the charge and whose sign is the opposite
one; and a run of `CompensateOrder` on a request whose Steps do not contain "payment"
calls `ProcessPayment` not at all. -/
theorem cancel_refunds_the_charge (exec : activity.Call → Option GoError) (order : Order)
    (pre rest : List Event) (h : StepsSucceed exec order)
    (hpre : ∀ ev ∈ pre, ev.isDecision = false) :
    activity.paymentCalls
        (OrderWorkflow exec order
          (pre ++ Event.signal { Status := "cancel" } :: rest)).trace.calls
      = [{ OrderID := order.ID, Amount := order.Amount }] ∧
    compensations
        (OrderWorkflow exec order
          (pre ++ Event.signal { Status := "cancel" } :: rest)).trace.calls
      = [{ OrderID := order.ID, Amount := order.Amount, Reason := "user_cancelled"
           Steps := ["payment", "inventory"] }] ∧
    (∀ (a : activity.OrderActivity) (now : Time),
      activity.paymentCalls
          (activity.CompensateOrder a now
            { OrderID := order.ID, Amount := order.Amount, Reason := "user_cancelled"
              Steps := ["payment", "inventory"] }).calls
        = [{ OrderID := order.ID, Amount := order.Amount.neg }]) ∧
    (order.Amount.neg.exponent = order.Amount.exponent ∧
      order.Amount.neg.fraction = order.Amount.fraction ∧
      order.Amount.neg.sign = !order.Amount.sign ∧
      order.Amount.neg.neg = order.Amount) ∧
    (∀ (a : activity.OrderActivity) (now : Time) (req : activity.CompensateOrderRequest),
      activity.contains req.Steps "payment" = false →
      activity.paymentCalls (activity.CompensateOrder a now req).calls = []) := by
  obtain ⟨_, r2, _⟩ := OrderWorkflow_cancelled exec order pre rest h hpre
  rw [r2]
  refine ⟨rfl, rfl, ?_, ?_, ?_⟩
  · intro a now
    simp only [activity.CompensateOrder, activity.contains]
    cases a.ProcessPayment ⟨order.ID, order.Amount.neg⟩ <;>
      cases a.CreateOrder ⟨order.ID, "cancelled", now⟩ <;>
      simp [activity.paymentCalls]
  · refine ⟨rfl, rfl, rfl, ?_⟩
    simp [Float64.neg]
  · intro a now req hc
    simp only [activity.CompensateOrder, hc]
    cases a.CreateOrder ⟨req.OrderID, "cancelled", now⟩ <;> simp [activity.paymentCalls]

/-- C7, at the sample order (charge 100.00) cancelled after the timer fired: the
refund of a run on a receiver whose order store is down is -100.00, once; and a
request with Steps `["inventory"]` leads to no refund call. -/
theorem cancel_refunds_the_charge_witness :
    activity.paymentCalls
        (OrderWorkflow (runOn activity.NewOrderActivity 0) sampleOrder
          ([Event.timer] ++ Event.signal { Status := "cancel" } :: [])).trace.calls
      = [{ OrderID := "o1", Amount := Float64.hundred }] ∧
    activity.paymentCalls
        (activity.CompensateOrder activity.storeDown 9
          { OrderID := "o1", Amount := Float64.hundred, Reason := "user_cancelled"
            Steps := ["payment", "inventory"] }).calls
      = [{ OrderID := "o1"
           Amount := { sign := true, exponent := 1029, fraction := 0x9000000000000 } }] ∧
    activity.paymentCalls
        (activity.CompensateOrder activity.refundRejected 9
          { OrderID := "o1", Amount := Float64.hundred, Reason := "inventory_failed"
            Steps := ["inventory"] }).calls = [] :=
  have h := cancel_refunds_the_charge (runOn activity.NewOrderActivity 0) sampleOrder
    [Event.timer] [] (by decide) (by decide)
  ⟨h.1, h.2.2.1 activity.storeDown 9,
    h.2.2.2.2 activity.refundRejected 9
      { OrderID := "o1", Amount := Float64.hundred, Reason := "inventory_failed"
        Steps := ["inventory"] } (by decide)⟩

/-! ## The retry policy -/

/-- Under the policy of the workflow the backoff after attempt `n` is one second
doubled `n - 1` times, capped at one minute. -/
theorem backoffInterval_activityOptions (n : Nat) :
    backoffInterval activityOptions.RetryPolicy n = min (Second * 2 ^ (n - 1)) Minute := by
  have h : ((Second : ℚ) * 2 ^ (n - 1)) = (((Second * 2 ^ (n - 1) : ℕ)) : ℚ) := by
    push_cast; rfl
  simp only [backoffInterval, activityOptions]
  rw [h, Nat.floor_natCast]

/-- C9: the policy the workflow installs for every activity is initial interval 1s,
coefficient 2, maximum interval 60s, 3 attempts at most, with a timeout of 60s per
attempt; under it the executor invokes an activity that fails at every attempt
exactly 3 times, waits 1s and then 2s between the attempts, and ends in a final
failure carrying the error of the third attempt; the next backoff would be 4s, and
every backoff is at most 60s. -/
theorem always_failing_activity_three_attempts (errs : Nat → GoError) :
    activityOptions
      = { StartToCloseTimeout := 60 * Second
          RetryPolicy :=
            { InitialInterval := 1 * Second, BackoffCoefficient := 2
              MaximumInterval := 60 * Second, MaximumAttempts := 3 } } ∧
    execute activityOptions.RetryPolicy (fun n => some (errs n))
      = { invocations := 3, waits := [1 * Second, 2 * Second], result := some (errs 3) } ∧
    backoffInterval activityOptions.RetryPolicy 3 = 4 * Second ∧
    (∀ n : Nat, backoffInterval activityOptions.RetryPolicy n ≤ 60 * Second) := by
  refine ⟨?_, ?_, ?_, ?_⟩
  · simp [activityOptions, Minute]
  · have h1 := backoffInterval_activityOptions 1
    have h2 := backoffInterval_activityOptions 2
    simp only [execute, retryFrom, activityOptions] at h1 h2 ⊢
    rw [h1, h2]
    simp [Second, Minute]
  · rw [backoffInterval_activityOptions]
    decide
  · intro n
    rw [backoffInterval_activityOptions]
    exact Nat.min_le_right _ _

end workflow

/-! ## Properties of the handler -/

namespace handler

/-- C10: for a request of `UpdateOrderStatus` that binds to a status, a signal is sent
if and only if the status is "complete" or "cancel"; then exactly one signal is sent,
carrying that status, on "order-signal", to the workflow id "order-" followed by the
order id, which is the id under which `CreateOrder` starts the saga whose order has
that id; for any other status the response has code 400 and no call is made on the
client. -/
theorem UpdateOrderStatus_signals (client : ClientCall → Option GoError) (orderID : String)
    (status : String) :
    (signalsSent (UpdateOrderStatus client orderID (Except.ok { Status := status })).calls ≠ [] ↔
      status = "complete" ∨ status = "cancel") ∧
    (status = "complete" ∨ status = "cancel" →
      (UpdateOrderStatus client orderID (Except.ok { Status := status })).calls
        = [ClientCall.SignalWorkflow ("order-" ++ orderID) "" "order-signal"
            { Status := status }]) ∧
    (¬ (status = "complete" ∨ status = "cancel") →
      (UpdateOrderStatus client orderID (Except.ok { Status := status })).calls = [] ∧
        (UpdateOrderStatus client orderID (Except.ok { Status := status })).response.code
          = 400) ∧
    (∀ (req : CreateOrderRequest) (now : Time),
      sagasStarted (CreateOrder client (Except.ok req) orderID now).calls
        = [("order-" ++ orderID, orderID)]) := by
  refine ⟨?_, ?_, ?_, ?_⟩
  · by_cases h : status = "complete" ∨ status = "cancel"
    · simp only [UpdateOrderStatus, h, if_true]
      cases client (ClientCall.SignalWorkflow ("order-" ++ orderID) "" "order-signal"
        { Status := status }) <;> simp [signalsSent]
    · simp [UpdateOrderStatus, h, signalsSent]
  · intro h
    simp only [UpdateOrderStatus, h, if_true]
    cases client (ClientCall.SignalWorkflow ("order-" ++ orderID) "" "order-signal"
      { Status := status }) <;> rfl
  · intro h
    simp only [UpdateOrderStatus, h, if_false]
    refine ⟨?_, ?_⟩ <;> first | rfl | trivial
  · intro req now
    simp only [CreateOrder]
    cases client (ClientCall.ExecuteWorkflow
      { ID := "order-" ++ orderID, TaskQueue := "order-queue" } "OrderWorkflow"
      { ID := orderID, Status := "pending", CreatedAt := now, Amount := req.Amount
        Products := req.Products }) <;> rfl

/-- C10, at concrete requests: "cancel" for order "abc" is signalled to "order-abc",
and the status "refund" is rejected with code 400 and no call. -/
theorem UpdateOrderStatus_signals_witness :
    (UpdateOrderStatus (fun _ => none) "abc" (Except.ok { Status := "cancel" })).calls
        = [ClientCall.SignalWorkflow "order-abc" "" "order-signal" { Status := "cancel" }] ∧
      ((UpdateOrderStatus (fun _ => none) "abc" (Except.ok { Status := "refund" })).calls = [] ∧
        (UpdateOrderStatus (fun _ => none) "abc"
          (Except.ok { Status := "refund" })).response.code = 400) :=
  ⟨(UpdateOrderStatus_signals (fun _ => none) "abc" "cancel").2.1 (by decide),
    (UpdateOrderStatus_signals (fun _ => none) "abc" "refund").2.2.1 (by decide)⟩

end handler
